import Mathlib

/-!
A verification development for the knowledge-graph block-processing pipeline
(services `cache` and `indexer`, shared utilities `indexer_utils`).

The Rust sources are shallowly embedded: pure functions become Lean functions,
machine words are `Nat` with explicit reduction modulo `2 ^ 32` or `256`, the
effectful handlers become explicit trace/state-passing functions, and fallible
operations return `Option` or `Except`.  Two helpers that the sources call but
whose definitions live outside the embedded crates (`checksum_address` and the
`network_ids::GEO` constant of `indexer_utils`, whose module files are not part
of the embedded tree) are modelled from the specification; each such definition
carries a doc comment saying so.  The static DAO blocklist returned by
`get_blocklist()` is passed as an explicit parameter.
-/

set_option maxRecDepth 4096

/-! ## Bytes, 32-bit words, and the MD5 digest

`indexer_utils::id` hashes UTF-8 strings with MD5 (the `md5` crate) and builds
UUIDs from the 16-byte digest.  Bytes are `Nat` values below 256; 32-bit words
are `Nat` values reduced modulo `2 ^ 32`. -/

/-- A 16-byte digest / UUID byte block, mirroring Rust's `[u8; 16]`. -/
structure Bytes16 where
  b0 : Nat
  b1 : Nat
  b2 : Nat
  b3 : Nat
  b4 : Nat
  b5 : Nat
  b6 : Nat
  b7 : Nat
  b8 : Nat
  b9 : Nat
  b10 : Nat
  b11 : Nat
  b12 : Nat
  b13 : Nat
  b14 : Nat
  b15 : Nat
deriving DecidableEq, Repr

/-- UUIDs are 128-bit values, represented by their 16 bytes. -/
abbrev Uuid := Bytes16

/-- `Uuid::nil()`: the all-zero UUID. -/
def Uuid.nilUuid : Uuid :=
  ⟨0, 0, 0, 0, 0, 0, 0, 0, 0, 0, 0, 0, 0, 0, 0, 0⟩

/-- `Uuid::from_bytes`: reinterpret 16 bytes (given as a list, as produced by
`transform_id_bytes`) as a UUID.  Defined for lists of length 16; shorter lists
pad with zero via `getD`, but every use site guards on length 16. -/
def Uuid.fromByteList (l : List Nat) : Uuid :=
  ⟨l.getD 0 0, l.getD 1 0, l.getD 2 0, l.getD 3 0, l.getD 4 0, l.getD 5 0,
   l.getD 6 0, l.getD 7 0, l.getD 8 0, l.getD 9 0, l.getD 10 0, l.getD 11 0,
   l.getD 12 0, l.getD 13 0, l.getD 14 0, l.getD 15 0⟩

/-- `uuid::Builder::from_random_bytes(..).into_uuid()`: stamp the RFC 4122
variant and version 4 onto a 16-byte block.  Rust sets
`b6 := (b6 & 0x0F) | 0x40` and `b8 := (b8 & 0x3F) | 0x80`; on byte values these
bit operations equal `b6 % 16 + 64` and `b8 % 64 + 128`, which is how they are
written here (explicit arithmetic on `Nat`). -/
def builderFromRandomBytes (d : Bytes16) : Uuid :=
  { d with b6 := d.b6 % 16 + 64, b8 := d.b8 % 64 + 128 }

/-- The version field of a UUID: the high nibble of byte 6. -/
def Uuid.version (u : Uuid) : Nat := u.b6 / 16

/-- The variant field of a UUID: the top two bits of byte 8
(`0b10` for RFC 4122). -/
def Uuid.variantBits (u : Uuid) : Nat := u.b8 / 64

/-- UTF-8 encoding of a single character (standard 1–4 byte encoding). -/
def utf8Char (c : Char) : List Nat :=
  let n := c.toNat
  if n < 128 then [n]
  else if n < 2048 then [192 + n / 64, 128 + n % 64]
  else if n < 65536 then [224 + n / 4096, 128 + n / 64 % 64, 128 + n % 64]
  else [240 + n / 262144, 128 + n / 4096 % 64, 128 + n / 64 % 64, 128 + n % 64]

/-- UTF-8 bytes of a string, as hashed by `Md5::update`. -/
def utf8Bytes (s : String) : List Nat :=
  (s.data.map utf8Char).flatten

/-- Reduce to a 32-bit word. -/
def w32 (n : Nat) : Nat := n % 4294967296

/-- 32-bit addition. -/
def wadd (a b : Nat) : Nat := (a + b) % 4294967296

/-- 32-bit bitwise complement. -/
def wnot (a : Nat) : Nat := 4294967295 - a % 4294967296

/-- 32-bit left rotation (inputs are already reduced words). -/
def wrotl (x s : Nat) : Nat :=
  (x * 2 ^ s) % 4294967296 + x % 4294967296 / 2 ^ (32 - s)

/-- MD5 round constants `K[i] = floor(|sin(i+1)| * 2^32)`. -/
def md5K : List Nat :=
  [3614090360, 3905402710, 606105819, 3250441966, 4118548399, 1200080426,
   2821735955, 4249261313, 1770035416, 2336552879, 4294925233, 2304563134,
   1804603682, 4254626195, 2792965006, 1236535329, 4129170786, 3225465664,
   643717713, 3921069994, 3593408605, 38016083, 3634488961, 3889429448,
   568446438, 3275163606, 4107603335, 1163531501, 2850285829, 4243563512,
   1735328473, 2368359562, 4294588738, 2272392833, 1839030562, 4259657740,
   2763975236, 1272893353, 4139469664, 3200236656, 681279174, 3936430074,
   3572445317, 76029189, 3654602809, 3873151461, 530742520, 3299628645,
   4096336452, 1126891415, 2878612391, 4237533241, 1700485571, 2399980690,
   4293915773, 2240044497, 1873313359, 4264355552, 2734768916, 1309151649,
   4149444226, 3174756917, 718787259, 3951481745]

/-- MD5 per-round shift amounts. -/
def md5S : List Nat :=
  [7, 12, 17, 22, 7, 12, 17, 22, 7, 12, 17, 22, 7, 12, 17, 22,
   5, 9, 14, 20, 5, 9, 14, 20, 5, 9, 14, 20, 5, 9, 14, 20,
   4, 11, 16, 23, 4, 11, 16, 23, 4, 11, 16, 23, 4, 11, 16, 23,
   6, 10, 15, 21, 6, 10, 15, 21, 6, 10, 15, 21, 6, 10, 15, 21]

/-- MD5 message padding: append `0x80`, zero-fill to 56 mod 64, then the
original bit length as a 64-bit little-endian quantity. -/
def md5Pad (msg : List Nat) : List Nat :=
  let bitLen := msg.length * 8
  let afterOne := msg ++ [128]
  let zeros := (64 - afterOne.length % 64 + 56) % 64
  afterOne ++ List.replicate zeros 0 ++
    (List.range 8).map (fun i => bitLen / 2 ^ (8 * i) % 256)

/-- Split a byte list into 64-byte blocks (the padded length is a multiple
of 64; `fuel` bounds the recursion). -/
def md5Blocks : Nat → List Nat → List (List Nat)
  | 0, _ => []
  | _, [] => []
  | fuel + 1, l => l.take 64 :: md5Blocks fuel (l.drop 64)

/-- Little-endian 32-bit word `j` of a 64-byte block. -/
def md5Word (block : List Nat) (j : Nat) : Nat :=
  block.getD (4 * j) 0 + block.getD (4 * j + 1) 0 * 256 +
    block.getD (4 * j + 2) 0 * 65536 + block.getD (4 * j + 3) 0 * 16777216

/-- One of the 64 MD5 steps, updating the `(a, b, c, d)` state. -/
def md5Step (block : List Nat) (st : Nat × Nat × Nat × Nat) (i : Nat) :
    Nat × Nat × Nat × Nat :=
  let (a, b, c, d) := st
  let (f, g) :=
    if i < 16 then ((b &&& c) ||| (wnot b &&& d), i)
    else if i < 32 then ((d &&& b) ||| (wnot d &&& c), (5 * i + 1) % 16)
    else if i < 48 then (b ^^^ c ^^^ d, (3 * i + 5) % 16)
    else (c ^^^ (b ||| wnot d), 7 * i % 16)
  let f := wadd (wadd (wadd f a) (md5K.getD i 0)) (md5Word block g)
  (d, wadd b (wrotl f (md5S.getD i 0)), b, c)

/-- Process one 64-byte block into the running MD5 state. -/
def md5Block (st : Nat × Nat × Nat × Nat) (block : List Nat) :
    Nat × Nat × Nat × Nat :=
  let (a0, b0, c0, d0) := st
  let (a, b, c, d) := (List.range 64).foldl (md5Step block) st
  (wadd a0 a, wadd b0 b, wadd c0 c, wadd d0 d)

/-- Serialize one 32-bit word into four little-endian bytes. -/
def wordBytes (w : Nat) : List Nat :=
  [w % 256, w / 256 % 256, w / 65536 % 256, w / 16777216 % 256]

/-- The MD5 digest of a byte sequence, as computed by the `md5` crate:
pad, process 64-byte blocks from the initial state, serialize `a, b, c, d`
little-endian into 16 bytes. -/
def md5Bytes (msg : List Nat) : Bytes16 :=
  let padded := md5Pad msg
  let blocks := md5Blocks (padded.length / 64 + 1) padded
  let (a, b, c, d) :=
    blocks.foldl md5Block (1732584193, 4023233417, 2562383102, 271733878)
  Uuid.fromByteList (wordBytes a ++ wordBytes b ++ wordBytes c ++ wordBytes d)

/-! ## `indexer_utils`: checksum addresses and deterministic IDs -/

/-- Modelled from the spec: `checksum_address` is the canonical mixed-case
(EIP-55 style) re-encoding of a 20-byte address, "deterministic and
case-insensitive on the input address".  Its definition lives in the
`indexer_utils` crate root, which is not part of the embedded tree; the
keccak-based casing is modelled here by the deterministic, case-insensitive
normalization to lowercase.  No claim below depends on the concrete casing,
only on determinism. -/
def checksum_address (s : String) : String := s.toLower

/-- Modelled from the spec: `network_ids::GEO`, the network identifier used
for space-ID derivation.  The constant's module is not part of the embedded
tree; no claim depends on its literal value. -/
def GEO : String := "geo"

/-- `derive_space_id(network, dao_address)` from `indexer_utils/src/id.rs`:
the MD5 of `"<network>:<checksum_address(dao_address)>"` with UUID version 4
and the RFC 4122 variant stamped on. -/
def derive_space_id (network daoAddress : String) : Uuid :=
  builderFromRandomBytes
    (md5Bytes (utf8Bytes (network ++ ":" ++ checksum_address daoAddress)))

/-- `derive_proposal_id(dao_address, proposal_id, plugin_address)` from
`indexer_utils/src/id.rs`: the MD5 of
`"<checksum(dao)>:<proposal_id>:<checksum(plugin)>"` with version 4 and the
RFC 4122 variant stamped on. -/
def derive_proposal_id (daoAddress proposalId pluginAddress : String) : Uuid :=
  builderFromRandomBytes
    (md5Bytes (utf8Bytes (checksum_address daoAddress ++ ":" ++ proposalId
      ++ ":" ++ checksum_address pluginAddress)))

/-- `IdError` from `indexer_utils/src/id.rs`. -/
inductive IdError where
  | decodeError
deriving DecidableEq, Repr

/-- `transform_id_bytes(bytes)` from `indexer_utils/src/id.rs`:
`Vec<u8>::try_into::<[u8; 16]>` succeeds exactly when the vector holds 16
bytes. -/
def transform_id_bytes (bytes : List Nat) : Except IdError (List Nat) :=
  if bytes.length = 16 then .ok bytes else .error .decodeError

/-- Value of a single hexadecimal digit, case-insensitive. -/
def hexVal (c : Char) : Option Nat :=
  if '0' ≤ c ∧ c ≤ '9' then some (c.toNat - 48)
  else if 'a' ≤ c ∧ c ≤ 'f' then some (c.toNat - 87)
  else if 'A' ≤ c ∧ c ≤ 'F' then some (c.toNat - 55)
  else none

/-- Parse a list of hex digits into bytes (two digits per byte). -/
def hexPairs : List Char → Option (List Nat)
  | [] => some []
  | hi :: lo :: rest => do
      let h ← hexVal hi
      let l ← hexVal lo
      let bs ← hexPairs rest
      pure ((h * 16 + l) :: bs)
  | _ => none

/-- `Uuid::parse_str`: accept the 32-digit simple form and the 36-character
hyphenated form `8-4-4-4-12` (hyphens at positions 8, 13, 18, 23) and decode
the 32 hex digits into 16 bytes.  (The uuid crate also accepts braced and URN
forms; no embedded call site passes those.) -/
def uuidParseStr (s : String) : Option Uuid :=
  let cs := s.data
  let digits : Option (List Char) :=
    if cs.length = 32 then some cs
    else if cs.length = 36 then
      if cs.getD 8 ' ' = '-' ∧ cs.getD 13 ' ' = '-' ∧ cs.getD 18 ' ' = '-'
          ∧ cs.getD 23 ' ' = '-' then
        some ((cs.enum.filter (fun p => p.1 ≠ 8 ∧ p.1 ≠ 13 ∧ p.1 ≠ 18
          ∧ p.1 ≠ 23)).map (·.2))
      else none
    else none
  match digits with
  | none => none
  | some ds =>
      match hexPairs ds with
      | some bs => if bs.length = 16 then some (Uuid.fromByteList bs) else none
      | none => none

/-! ## Wire event types (`wire::pb::chain`, `wire::pb::grc20`)

Protobuf event payloads, with the fields the embedded functions read. -/

/-- `EditPublished` event. -/
structure EditPublished where
  content_uri : String
  dao_address : String
  plugin_address : String
deriving DecidableEq, Repr

/-- `PublishEditProposalCreated` event (`geo.edits`). -/
structure PublishEditProposalCreated where
  proposal_id : String
  creator : String
  start_time : String
  end_time : String
  content_uri : String
  dao_address : String
  plugin_address : String
deriving DecidableEq, Repr

/-- `GeoSpaceCreated` event. -/
structure GeoSpaceCreated where
  dao_address : String
  space_address : String
deriving DecidableEq, Repr

/-- `GeoGovernancePluginCreated` event. -/
structure GeoGovernancePluginCreated where
  dao_address : String
  main_voting_address : String
  member_access_address : String
deriving DecidableEq, Repr

/-- `GeoPersonalSpaceAdminPluginCreated` event. -/
structure GeoPersonalSpaceAdminPluginCreated where
  dao_address : String
  personal_admin_address : String
deriving DecidableEq, Repr

/-- `EditorAdded` event (plugin address and change type unread downstream). -/
structure EditorAdded where
  dao_address : String
  editor_address : String
deriving DecidableEq, Repr

/-- `MemberAdded` event. -/
structure MemberAdded where
  dao_address : String
  member_address : String
deriving DecidableEq, Repr

/-- `EditorRemoved` event. -/
structure EditorRemoved where
  dao_address : String
  editor_address : String
deriving DecidableEq, Repr

/-- `MemberRemoved` event. -/
structure MemberRemoved where
  dao_address : String
  member_address : String
deriving DecidableEq, Repr

/-- `SubspaceAdded` event. -/
structure SubspaceAdded where
  dao_address : String
  subspace : String
deriving DecidableEq, Repr

/-- `SubspaceRemoved` event. -/
structure SubspaceRemoved where
  dao_address : String
  subspace : String
deriving DecidableEq, Repr

/-- `ProposalExecuted` event. -/
structure ProposalExecuted where
  proposal_id : String
  plugin_address : String
deriving DecidableEq, Repr

/-- A governance proposal-created event; `AddMemberProposalCreated`,
`RemoveMemberProposalCreated`, `AddEditorProposalCreated`,
`RemoveEditorProposalCreated`, `AddSubspaceProposalCreated` and
`RemoveSubspaceProposalCreated` all carry this field layout (the
member/editor/subspace address is `subject`). -/
structure GovernanceProposalCreated where
  proposal_id : String
  creator : String
  start_time : String
  end_time : String
  subject : String
  dao_address : String
  plugin_address : String
  change_type : String
deriving DecidableEq, Repr

/-- The decoded `grc20::Edit` payload; `id` is the raw protobuf byte field
(`ops`, `authors` and `language` are never read by the embedded functions). -/
structure Edit where
  id : List Nat
  name : String
deriving DecidableEq, Repr

/-- `GeoOutput`: the per-block event bundle decoded from the substream. -/
structure GeoOutput where
  edits_published : List EditPublished
  edits : List PublishEditProposalCreated
  spaces_created : List GeoSpaceCreated
  governance_plugins_created : List GeoGovernancePluginCreated
  personal_plugins_created : List GeoPersonalSpaceAdminPluginCreated
  editors_added : List EditorAdded
  members_added : List MemberAdded
  editors_removed : List EditorRemoved
  members_removed : List MemberRemoved
  subspaces_added : List SubspaceAdded
  subspaces_removed : List SubspaceRemoved
  executed_proposals : List ProposalExecuted
  proposed_added_members : List GovernanceProposalCreated
  proposed_removed_members : List GovernanceProposalCreated
  proposed_added_editors : List GovernanceProposalCreated
  proposed_removed_editors : List GovernanceProposalCreated
  proposed_added_subspaces : List GovernanceProposalCreated
  proposed_removed_subspaces : List GovernanceProposalCreated
deriving Repr

/-! ## Indexer data model (`indexer/src/lib.rs`, `indexer/src/cache/mod.rs`) -/

/-- A cache row as read by the indexer (`PreprocessedEdit`). -/
structure PreprocessedEdit where
  cid : String
  edit : Option Edit
  is_errored : Bool
  space_id : Uuid
deriving DecidableEq, Repr

/-- `PersonalSpace`. -/
structure PersonalSpace where
  dao_address : String
  space_address : String
  personal_plugin : String
deriving DecidableEq, Repr

/-- `PublicSpace`. -/
structure PublicSpace where
  dao_address : String
  space_address : String
  membership_plugin : String
  governance_plugin : String
deriving DecidableEq, Repr

/-- `CreatedSpace`. -/
inductive CreatedSpace where
  | personal (s : PersonalSpace)
  | publicSpace (s : PublicSpace)
deriving DecidableEq, Repr

/-- `AddedMember` (also the target shape for added editors). -/
structure AddedMember where
  dao_address : String
  editor_address : String
deriving DecidableEq, Repr

/-- `RemovedMember`. -/
structure RemovedMember where
  dao_address : String
  editor_address : String
deriving DecidableEq, Repr

/-- `AddedSubspace`. -/
structure AddedSubspace where
  dao_address : String
  subspace_address : String
deriving DecidableEq, Repr

/-- `RemovedSubspace`. -/
structure RemovedSubspace where
  dao_address : String
  subspace_address : String
deriving DecidableEq, Repr

/-- `ExecutedProposal`. -/
structure ExecutedProposal where
  proposal_id : String
  plugin_address : String
deriving DecidableEq, Repr

/-- `ProposalCreated`, as constructed by `preprocess::map_created_proposals`:
the `publishEdit` variant carries the correlated `edit_id`, and each other
variant carries the `id` derived by `derive_proposal_id` (the constructions in
`preprocess.rs` populate an `id` field on these variants; the variant layout
here follows those construction sites).  The member/editor/subspace address is
`subject`. -/
inductive ProposalCreated where
  | publishEdit (proposal_id creator start_time end_time content_uri
      dao_address plugin_address : String) (edit_id : Option Uuid)
  | addMember (id : Uuid) (proposal_id creator start_time end_time subject
      dao_address plugin_address change_type : String)
  | removeMember (id : Uuid) (proposal_id creator start_time end_time subject
      dao_address plugin_address change_type : String)
  | addEditor (id : Uuid) (proposal_id creator start_time end_time subject
      dao_address plugin_address change_type : String)
  | removeEditor (id : Uuid) (proposal_id creator start_time end_time subject
      dao_address plugin_address change_type : String)
  | addSubspace (id : Uuid) (proposal_id creator start_time end_time subject
      dao_address plugin_address change_type : String)
  | removeSubspace (id : Uuid) (proposal_id creator start_time end_time subject
      dao_address plugin_address change_type : String)
deriving DecidableEq, Repr

/-- `BlockMetadata` from the stream utilities. -/
structure BlockMetadata where
  cursor : String
  block_number : Nat
  timestamp : String
deriving DecidableEq, Repr

/-- `KgData`: the preprocessed block bundle handed to the handlers. -/
structure KgData where
  block : BlockMetadata
  edits : List PreprocessedEdit
  added_editors : List AddedMember
  removed_editors : List RemovedMember
  added_members : List AddedMember
  removed_members : List RemovedMember
  added_subspaces : List AddedSubspace
  removed_subspaces : List RemovedSubspace
  spaces : List CreatedSpace
  executed_proposals : List ExecutedProposal
  created_proposals : List ProposalCreated
deriving Repr

/-! ## `indexer/src/preprocess.rs` -/

/-- `match_spaces_with_plugins`: for each created space, first look for a
governance plugin with the same DAO address (Public space), otherwise for a
personal-admin plugin (Personal space), otherwise skip the space.  The `for`
loop with `push` becomes a `foldl` that appends. -/
def match_spaces_with_plugins (spaces : List GeoSpaceCreated)
    (governance_plugins : List GeoGovernancePluginCreated)
    (personal_plugins : List GeoPersonalSpaceAdminPluginCreated) :
    List CreatedSpace :=
  spaces.foldl (fun created_spaces space =>
    match governance_plugins.find?
        (fun plugin => plugin.dao_address = space.dao_address) with
    | some governance_plugin =>
        created_spaces ++ [.publicSpace
          { dao_address := space.dao_address
            space_address := space.space_address
            membership_plugin := governance_plugin.member_access_address
            governance_plugin := governance_plugin.main_voting_address }]
    | none =>
        match personal_plugins.find?
            (fun plugin => plugin.dao_address = space.dao_address) with
        | some personal_plugin =>
            created_spaces ++ [.personal
              { dao_address := space.dao_address
                space_address := space.space_address
                personal_plugin := personal_plugin.personal_admin_address }]
        | none => created_spaces) []

/-- `map_editors_added`. -/
def map_editors_added (editors : List EditorAdded) : List AddedMember :=
  editors.map (fun e => { dao_address := e.dao_address
                          editor_address := e.editor_address })

/-- `map_members_added`. -/
def map_members_added (members : List MemberAdded) : List AddedMember :=
  members.map (fun e => { dao_address := e.dao_address
                          editor_address := e.member_address })

/-- `map_subspaces_added`. -/
def map_subspaces_added (subspaces : List SubspaceAdded) : List AddedSubspace :=
  subspaces.map (fun s => { dao_address := s.dao_address
                            subspace_address := s.subspace })

/-- `map_subspaces_removed`. -/
def map_subspaces_removed (subspaces : List SubspaceRemoved) :
    List RemovedSubspace :=
  subspaces.map (fun s => { dao_address := s.dao_address
                            subspace_address := s.subspace })

/-- `map_members_removed`. -/
def map_members_removed (members : List MemberRemoved) : List RemovedMember :=
  members.map (fun m => { dao_address := m.dao_address
                          editor_address := m.member_address })

/-- `map_editors_removed`. -/
def map_editors_removed (editors : List EditorRemoved) : List RemovedMember :=
  editors.map (fun e => { dao_address := e.dao_address
                          editor_address := e.editor_address })

/-- `map_executed_proposals`. -/
def map_executed_proposals (proposals : List ProposalExecuted) :
    List ExecutedProposal :=
  proposals.map (fun p => { proposal_id := p.proposal_id
                            plugin_address := p.plugin_address })

/-- `deduplicate_content_uris`: collect into a `HashSet<String>` and back into
a vector.  The hash set holds each distinct URI exactly once; its iteration
order is unspecified in Rust, so the model fixes one definite enumeration
(keeping the last occurrence).  Every property proved below is
order-independent. -/
def deduplicate_content_uris : List String → List String
  | [] => []
  | uri :: rest =>
      if uri ∈ rest then deduplicate_content_uris rest
      else uri :: deduplicate_content_uris rest

/-- `fetch_deduplicated_cache_entries` spawns one cache fetch task (one
retried `cache.get` loop) per element of `deduplicate_content_uris`; this is
the number of spawned tasks. -/
def num_spawned_fetch_tasks (content_uris : List String) : Nat :=
  (deduplicate_content_uris content_uris).length

/-- `fetch_deduplicated_cache_entries` as a map: `cacheGet uri = some row`
models a `cache.get` that succeeds (possibly after retries) and
`none` one that still fails after all retries; the resulting map holds
exactly the deduplicated URIs whose fetch succeeded. -/
def fetch_deduplicated_cache_entries
    (cacheGet : String → Option PreprocessedEdit)
    (content_uris : List String) : String → Option PreprocessedEdit :=
  fun uri =>
    if uri ∈ deduplicate_content_uris content_uris then cacheGet uri else none

/-- The `edit_id` correlation for one `PublishEdit` proposal, inlined in
`map_created_proposals`: present exactly when the cache map has a
non-errored row for the proposal's content URI whose decoded edit's raw `id`
passes `transform_id_bytes` (16 bytes). -/
def publish_edit_id (cache_map : String → Option PreprocessedEdit)
    (p : PublishEditProposalCreated) : Option Uuid :=
  match cache_map p.content_uri with
  | some cached_edit =>
      if cached_edit.is_errored = false then
        match cached_edit.edit with
        | some edit =>
            match transform_id_bytes edit.id with
            | .ok bytes => some (Uuid.fromByteList bytes)
            | .error _ => none
        | none => none
      else none
  | none => none

/-- `map_created_proposals` from `preprocess.rs`: `PublishEdit` proposals are
correlated against the cache map; the six governance proposal kinds get
`id := derive_proposal_id(dao, proposal_id, plugin)`.  The seven sequential
push loops become seven mapped segments appended in the same order. -/
def map_created_proposals (geo : GeoOutput)
    (cache_map : String → Option PreprocessedEdit) : List ProposalCreated :=
  geo.edits.map (fun p =>
    .publishEdit p.proposal_id p.creator p.start_time p.end_time
      p.content_uri p.dao_address p.plugin_address (publish_edit_id cache_map p))
  ++ geo.proposed_added_members.map (fun p =>
    .addMember (derive_proposal_id p.dao_address p.proposal_id p.plugin_address)
      p.proposal_id p.creator p.start_time p.end_time p.subject
      p.dao_address p.plugin_address p.change_type)
  ++ geo.proposed_removed_members.map (fun p =>
    .removeMember (derive_proposal_id p.dao_address p.proposal_id p.plugin_address)
      p.proposal_id p.creator p.start_time p.end_time p.subject
      p.dao_address p.plugin_address p.change_type)
  ++ geo.proposed_added_editors.map (fun p =>
    .addEditor (derive_proposal_id p.dao_address p.proposal_id p.plugin_address)
      p.proposal_id p.creator p.start_time p.end_time p.subject
      p.dao_address p.plugin_address p.change_type)
  ++ geo.proposed_removed_editors.map (fun p =>
    .removeEditor (derive_proposal_id p.dao_address p.proposal_id p.plugin_address)
      p.proposal_id p.creator p.start_time p.end_time p.subject
      p.dao_address p.plugin_address p.change_type)
  ++ geo.proposed_added_subspaces.map (fun p =>
    .addSubspace (derive_proposal_id p.dao_address p.proposal_id p.plugin_address)
      p.proposal_id p.creator p.start_time p.end_time p.subject
      p.dao_address p.plugin_address p.change_type)
  ++ geo.proposed_removed_subspaces.map (fun p =>
    .removeSubspace (derive_proposal_id p.dao_address p.proposal_id p.plugin_address)
      p.proposal_id p.creator p.start_time p.end_time p.subject
      p.dao_address p.plugin_address p.change_type)

/-- The first loop of `preprocess_block_scoped_data`: skip events whose DAO
address is in the blocklist, pushing the rest (a `for`/`continue` loop over
`edits_published`). -/
def non_blocklisted_edits_published (blocklist : List String)
    (geo : GeoOutput) : List EditPublished :=
  geo.edits_published.foldl (fun acc chain_edit =>
    if chain_edit.dao_address ∈ blocklist then acc else acc ++ [chain_edit]) []

/-- The URI collection of `preprocess_block_scoped_data`: content URIs of the
non-blocklisted published edits, then the content URIs of every `PublishEdit`
proposal event (the latter are not blocklist-filtered). -/
def all_content_uris (blocklist : List String) (geo : GeoOutput) :
    List String :=
  (non_blocklisted_edits_published blocklist geo).map (·.content_uri)
    ++ geo.edits.map (·.content_uri)

/-- The edit-extraction loop of `preprocess_block_scoped_data`: walk the
non-blocklisted published edits in order and push the cache row for each URI
that is present in the fetched map. -/
def final_edits (blocklist : List String) (geo : GeoOutput)
    (cache_map : String → Option PreprocessedEdit) : List PreprocessedEdit :=
  (non_blocklisted_edits_published blocklist geo).foldl (fun acc chain_edit =>
    match cache_map chain_edit.content_uri with
    | some cached_edit => acc ++ [cached_edit]
    | none => acc) []

/-- DAO addresses of the spaces created in this block (a `HashSet` in the
source; modelled as the list, membership being all that is read). -/
def created_space_dao_addresses (created_spaces : List CreatedSpace) :
    List String :=
  created_spaces.map (fun space =>
    match space with
    | .personal personal_space => personal_space.dao_address
    | .publicSpace public_space => public_space.dao_address)

/-- `preprocess_block_scoped_data`, given the decoded `GeoOutput`, the
blocklist, the block metadata, and the per-URI cache fetch outcome: assembles
`KgData` exactly as the source does (fetching happens through
`fetch_deduplicated_cache_entries`; editors of spaces created in the same
block are added as initial members). -/
def preprocess_block_scoped_data (blocklist : List String) (geo : GeoOutput)
    (block_metadata : BlockMetadata)
    (cacheGet : String → Option PreprocessedEdit) : KgData :=
  let cache_map :=
    fetch_deduplicated_cache_entries cacheGet (all_content_uris blocklist geo)
  let created_spaces := match_spaces_with_plugins geo.spaces_created
    geo.governance_plugins_created geo.personal_plugins_created
  let added_editors := map_editors_added geo.editors_added
  let added_members := map_members_added geo.members_added
  let added_members := added_members ++
    added_editors.filter
      (fun editor =>
        editor.dao_address ∈ created_space_dao_addresses created_spaces)
  { block := block_metadata
    edits := final_edits blocklist geo cache_map
    added_editors := added_editors
    removed_editors := map_editors_removed geo.editors_removed
    added_members := added_members
    removed_members := map_members_removed geo.members_removed
    added_subspaces := map_subspaces_added geo.subspaces_added
    removed_subspaces := map_subspaces_removed geo.subspaces_removed
    spaces := created_spaces
    executed_proposals := map_executed_proposals geo.executed_proposals
    created_proposals := map_created_proposals geo cache_map }

/-! ## `indexer/src/models/proposals.rs` -/

/-- `ProposalType`. -/
inductive ProposalType where
  | publishEdit
  | addMember
  | removeMember
  | addEditor
  | removeEditor
  | addSubspace
  | removeSubspace
deriving DecidableEq, Repr

/-- `ProposalStatus`. -/
inductive ProposalStatus where
  | created
  | executed
  | failed
  | expired
deriving DecidableEq, Repr

/-- `ProposalItem`, the row shape handed to `insert_proposals`. -/
structure ProposalItem where
  id : Uuid
  space_id : Uuid
  proposal_type : ProposalType
  creator : String
  start_time : Int
  end_time : Int
  status : ProposalStatus
  content_uri : Option String
  address : Option String
  created_at_block : Int
deriving DecidableEq, Repr

/-- Rust's `str::parse::<i64>()`: an optional sign followed by at least one
decimal digit (overflow is ignored here; no embedded call site can
overflow a mathematical `Int`). -/
def parseI64 (s : String) : Option Int :=
  let (sign, digits) : Int × List Char :=
    match s.data with
    | '-' :: rest => (-1, rest)
    | '+' :: rest => (1, rest)
    | cs => (1, cs)
  if digits = [] ∨ ¬ digits.all (fun c => '0' ≤ c ∧ c ≤ '9') then none
  else some (sign * (digits.foldl (fun acc c => acc * 10 + (c.toNat - 48)) 0 : Nat))

/-- `s.parse().unwrap_or(0)` as used for `start_time` / `end_time`. -/
def parseI64OrZero (s : String) : Int := (parseI64 s).getD 0

/-- `Uuid::parse_str(s).unwrap_or_else(|_| Uuid::new_v4())`: the random
`new_v4()` fallback is modelled by the explicitly passed `fresh` UUID. -/
def parseUuidOrFresh (fresh : Uuid) (s : String) : Uuid :=
  (uuidParseStr s).getD fresh

/-- `ProposalsModel::map_created_proposals(proposals, block_number)`: maps each
`ProposalCreated` to a `ProposalItem`.  `PublishEdit` uses
`edit_id.unwrap_or_else(parse proposal_id / new_v4)`; every other variant
uses `Uuid::parse_str(proposal_id).unwrap_or_else(new_v4)` — the `id` field
computed in preprocessing is matched away by `..` and never read.  The
nondeterministic `Uuid::new_v4()` fallback is the `fresh` parameter. -/
def ProposalsModel.map_created_proposals (proposals : List ProposalCreated)
    (block_number : Int) (fresh : Uuid) : List ProposalItem :=
  proposals.map (fun proposal =>
    match proposal with
    | .publishEdit proposal_id creator start_time end_time content_uri
        dao_address _plugin_address edit_id =>
        { id := edit_id.getD (parseUuidOrFresh fresh proposal_id)
          space_id := derive_space_id GEO (checksum_address dao_address)
          proposal_type := .publishEdit
          creator := checksum_address creator
          start_time := parseI64OrZero start_time
          end_time := parseI64OrZero end_time
          status := .created
          content_uri := some content_uri
          address := none
          created_at_block := block_number }
    | .addMember _id proposal_id creator start_time end_time member
        dao_address _plugin _change =>
        { id := parseUuidOrFresh fresh proposal_id
          space_id := derive_space_id GEO (checksum_address dao_address)
          proposal_type := .addMember
          creator := checksum_address creator
          start_time := parseI64OrZero start_time
          end_time := parseI64OrZero end_time
          status := .created
          content_uri := none
          address := some (checksum_address member)
          created_at_block := block_number }
    | .removeMember _id proposal_id creator start_time end_time member
        dao_address _plugin _change =>
        { id := parseUuidOrFresh fresh proposal_id
          space_id := derive_space_id GEO (checksum_address dao_address)
          proposal_type := .removeMember
          creator := checksum_address creator
          start_time := parseI64OrZero start_time
          end_time := parseI64OrZero end_time
          status := .created
          content_uri := none
          address := some (checksum_address member)
          created_at_block := block_number }
    | .addEditor _id proposal_id creator start_time end_time editor
        dao_address _plugin _change =>
        { id := parseUuidOrFresh fresh proposal_id
          space_id := derive_space_id GEO (checksum_address dao_address)
          proposal_type := .addEditor
          creator := checksum_address creator
          start_time := parseI64OrZero start_time
          end_time := parseI64OrZero end_time
          status := .created
          content_uri := none
          address := some (checksum_address editor)
          created_at_block := block_number }
    | .removeEditor _id proposal_id creator start_time end_time editor
        dao_address _plugin _change =>
        { id := parseUuidOrFresh fresh proposal_id
          space_id := derive_space_id GEO (checksum_address dao_address)
          proposal_type := .removeEditor
          creator := checksum_address creator
          start_time := parseI64OrZero start_time
          end_time := parseI64OrZero end_time
          status := .created
          content_uri := none
          address := some (checksum_address editor)
          created_at_block := block_number }
    | .addSubspace _id proposal_id creator start_time end_time subspace
        dao_address _plugin _change =>
        { id := parseUuidOrFresh fresh proposal_id
          space_id := derive_space_id GEO (checksum_address dao_address)
          proposal_type := .addSubspace
          creator := checksum_address creator
          start_time := parseI64OrZero start_time
          end_time := parseI64OrZero end_time
          status := .created
          content_uri := none
          address := some (checksum_address subspace)
          created_at_block := block_number }
    | .removeSubspace _id proposal_id creator start_time end_time subspace
        dao_address _plugin _change =>
        { id := parseUuidOrFresh fresh proposal_id
          space_id := derive_space_id GEO (checksum_address dao_address)
          proposal_type := .removeSubspace
          creator := checksum_address creator
          start_time := parseI64OrZero start_time
          end_time := parseI64OrZero end_time
          status := .created
          content_uri := none
          address := some (checksum_address subspace)
          created_at_block := block_number })

/-- `ProposalsModel::map_executed_proposals`: parse each executed proposal's
on-chain id as a UUID, silently dropping non-parseable ids. -/
def ProposalsModel.map_executed_proposals
    (executed_proposals : List ExecutedProposal) : List Uuid :=
  executed_proposals.filterMap (fun ep => uuidParseStr ep.proposal_id)

/-- The DAO address carried by a created proposal (any variant). -/
def ProposalCreated.daoAddress : ProposalCreated → String
  | .publishEdit _ _ _ _ _ dao _ _ => dao
  | .addMember _ _ _ _ _ _ dao _ _ => dao
  | .removeMember _ _ _ _ _ _ dao _ _ => dao
  | .addEditor _ _ _ _ _ _ dao _ _ => dao
  | .removeEditor _ _ _ _ _ _ dao _ _ => dao
  | .addSubspace _ _ _ _ _ _ dao _ _ => dao
  | .removeSubspace _ _ _ _ _ _ dao _ _ => dao

/-! ## `indexer/src/block_handler/edit_handler.rs`

The edit handler's storage effects are embedded as an explicit event trace.
For every preprocessed edit, the source begins a transaction, then — unless
the cache row is errored — updates the in-memory properties cache and issues
the eight storage calls below in order, catching each call's error with a
log line (`if let Err(error) = ... { println!(...) }`) and continuing; it
finally calls `tx.commit()`, whose error is also only logged, and moves to
the next edit.  The `fails` oracle says which storage calls return `Err` for
which edit. -/

/-- The eight storage calls of one edit's transaction, in source order. -/
inductive StorageStep where
  | insertProperties
  | insertEntities
  | insertValues
  | deleteValues
  | insertRelations
  | updateRelations
  | unsetRelationFields
  | deleteRelations
deriving DecidableEq, Repr

/-- The storage calls in the order the handler issues them. -/
def editSteps : List StorageStep :=
  [.insertProperties, .insertEntities, .insertValues, .deleteValues,
   .insertRelations, .updateRelations, .unsetRelationFields, .deleteRelations]

/-- Observable events of the edit handler's run. -/
inductive TxEvent where
  | beginTx (cid : String)
  | propertiesCacheUpdate (cid : String)
  | write (cid : String) (step : StorageStep)
  | logError (cid : String) (step : StorageStep)
  | skipErrored (cid : String)
  | commitTx (cid : String)
  | logCommitError (cid : String)
deriving DecidableEq, Repr

/-- Which storage calls fail, per edit (keyed by the edit's `cid`), and
whether the final `tx.commit()` fails. -/
structure StorageOracle where
  stepFails : String → StorageStep → Bool
  commitFails : String → Bool

/-- The events of processing one preprocessed edit, exactly as
`edit_handler::run` does: begin; if the row is not errored, update the
properties cache and attempt all eight storage calls in order (an `Err` is
logged and the next call still runs), else log the skip; finally commit,
logging a commit error. -/
def edit_handler_edit_events (oracle : StorageOracle)
    (preprocessed_edit : PreprocessedEdit) : List TxEvent :=
  [.beginTx preprocessed_edit.cid]
  ++ (if preprocessed_edit.is_errored = false then
        [.propertiesCacheUpdate preprocessed_edit.cid]
        ++ editSteps.flatMap (fun step =>
            if oracle.stepFails preprocessed_edit.cid step then
              [.logError preprocessed_edit.cid step]
            else
              [.write preprocessed_edit.cid step])
      else
        [.skipErrored preprocessed_edit.cid])
  ++ [if oracle.commitFails preprocessed_edit.cid then
        .logCommitError preprocessed_edit.cid
      else
        .commitTx preprocessed_edit.cid]

/-- `edit_handler::run`: the edits are processed sequentially; each edit's
task is awaited before the next starts, so the run trace is the
concatenation of the per-edit traces. -/
def edit_handler_run (oracle : StorageOracle)
    (output : List PreprocessedEdit) : List TxEvent :=
  output.flatMap (edit_handler_edit_events oracle)

/-- The storage calls of one edit that end up committed, under standard
buffered-transaction semantics: a call that returned `Ok` buffered its write
in the transaction, and since the handler never rolls back and always invokes
`commit`, every buffered write of the edit is applied when the commit
succeeds.  (Errored cache rows issue no calls; a failed commit applies
nothing.) -/
def edit_committed_writes (oracle : StorageOracle)
    (preprocessed_edit : PreprocessedEdit) : List StorageStep :=
  if preprocessed_edit.is_errored then []
  else if oracle.commitFails preprocessed_edit.cid then []
  else editSteps.filter
    (fun step => oracle.stepFails preprocessed_edit.cid step = false)

/-! ## `cache/src/main.rs`: the Content Resolver -/

/-- A cache row as written by the resolver (`CacheItem` in
`cache/src/cache.rs`). -/
structure CacheItem where
  uri : String
  json : Option Edit
  block : String
  space : Uuid
  is_errored : Bool
deriving DecidableEq, Repr

/-- The outcome of `ipfs.get(content_uri)`: the gateway fetch plus protobuf
decode either yields a decoded `Edit` or fails (transport error, decode
error, malformed data). -/
inductive IpfsFetchResult where
  | ok (result : Edit)
  | fetchError
deriving DecidableEq, Repr

/-- `process_edit_event` from `cache/src/main.rs`, for any cacheable event
(`content_uri`, `dao_address` are the capability set): if the cache already
has a row for the URI, return without writing (`none`); otherwise write one
row — on fetch/decode success the decoded payload with `is_errored = false`,
on failure a `json = null` row with `is_errored = true`; in both cases
`space := derive_space_id(GEO, dao_address)` and the block timestamp.  The
returned item is the row handed to `Cache::put` (which forwards it unchanged
to `Storage::insert`). -/
def process_edit_event (cacheHasUri : Bool) (data : IpfsFetchResult)
    (content_uri dao_address : String) (block : BlockMetadata) :
    Option CacheItem :=
  if cacheHasUri then none
  else
    match data with
    | .ok result =>
        some { uri := content_uri
               json := some result
               block := block.timestamp
               space := derive_space_id GEO dao_address
               is_errored := false }
    | .fetchError =>
        some { uri := content_uri
               json := none
               block := block.timestamp
               space := derive_space_id GEO dao_address
               is_errored := true }

/-! ## Auxiliary definitions and concrete fixtures -/

/-- The per-space matching decision inside `match_spaces_with_plugins`:
governance plugin first (Public), then personal plugin (Personal), else
nothing. -/
def match_one_space (governance_plugins : List GeoGovernancePluginCreated)
    (personal_plugins : List GeoPersonalSpaceAdminPluginCreated)
    (space : GeoSpaceCreated) : Option CreatedSpace :=
  match governance_plugins.find?
      (fun plugin => plugin.dao_address = space.dao_address) with
  | some governance_plugin =>
      some (.publicSpace
        { dao_address := space.dao_address
          space_address := space.space_address
          membership_plugin := governance_plugin.member_access_address
          governance_plugin := governance_plugin.main_voting_address })
  | none =>
      match personal_plugins.find?
          (fun plugin => plugin.dao_address = space.dao_address) with
      | some personal_plugin =>
          some (.personal
            { dao_address := space.dao_address
              space_address := space.space_address
              personal_plugin := personal_plugin.personal_admin_address })
      | none => none

/-- Two 16-byte digests agree outside the six stamped bits: all bytes equal
except possibly the high nibble of byte 6 (overwritten by the version) and
the top two bits of byte 8 (overwritten by the variant). -/
def digestsAgreeOutsideStampedBits (x y : Bytes16) : Prop :=
  x.b0 = y.b0 ∧ x.b1 = y.b1 ∧ x.b2 = y.b2 ∧ x.b3 = y.b3 ∧ x.b4 = y.b4 ∧
  x.b5 = y.b5 ∧ x.b6 % 16 = y.b6 % 16 ∧ x.b7 = y.b7 ∧
  x.b8 % 64 = y.b8 % 64 ∧ x.b9 = y.b9 ∧ x.b10 = y.b10 ∧ x.b11 = y.b11 ∧
  x.b12 = y.b12 ∧ x.b13 = y.b13 ∧ x.b14 = y.b14 ∧ x.b15 = y.b15

/-- A block whose only event is a `PublishEdit` proposal from a blocklisted
DAO. -/
def geoBlockedProposal : GeoOutput :=
  { edits_published := []
    edits := [⟨"1", "c", "0", "0", "ipfs://u", "0xbad", "p"⟩]
    spaces_created := []
    governance_plugins_created := []
    personal_plugins_created := []
    editors_added := []
    members_added := []
    editors_removed := []
    members_removed := []
    subspaces_added := []
    subspaces_removed := []
    executed_proposals := []
    proposed_added_members := []
    proposed_removed_members := []
    proposed_added_editors := []
    proposed_removed_editors := []
    proposed_added_subspaces := []
    proposed_removed_subspaces := [] }

/-- An oracle under which `insert_entities` fails for every edit and every
other call (and the commit) succeeds. -/
def oracleEntitiesFail : StorageOracle :=
  { stepFails := fun _ step => step = .insertEntities
    commitFails := fun _ => false }

/-- A concrete non-errored preprocessed edit. -/
def editOk : PreprocessedEdit :=
  { cid := "ipfs://ok"
    edit := some ⟨[1, 2, 3, 4, 5, 6, 7, 8, 9, 10, 11, 12, 13, 14, 15, 16], "e"⟩
    is_errored := false
    space_id := Uuid.nilUuid }

/-- An oracle under which every storage call and every commit succeeds. -/
def oracleAllOk : StorageOracle :=
  { stepFails := fun _ _ => false
    commitFails := fun _ => false }

/-- A concrete errored cache row. -/
def editErrored : PreprocessedEdit :=
  { cid := "ipfs://bad"
    edit := none
    is_errored := true
    space_id := Uuid.nilUuid }

/-- A block whose only event is an `AddMember` proposal whose on-chain
proposal id happens to parse as the nil UUID. -/
def geoAddMemberNilPid : GeoOutput :=
  { edits_published := []
    edits := []
    spaces_created := []
    governance_plugins_created := []
    personal_plugins_created := []
    editors_added := []
    members_added := []
    editors_removed := []
    members_removed := []
    subspaces_added := []
    subspaces_removed := []
    executed_proposals := []
    proposed_added_members :=
      [⟨"00000000-0000-0000-0000-000000000000", "0xc", "10", "20", "0xm",
        "0xdao", "0xplug", "added"⟩]
    proposed_removed_members := []
    proposed_added_editors := []
    proposed_removed_editors := []
    proposed_added_subspaces := []
    proposed_removed_subspaces := [] }

/-- A concrete non-nil fallback UUID standing in for `Uuid::new_v4()`. -/
def freshFallback : Uuid :=
  ⟨99, 1, 2, 3, 4, 5, 6, 7, 8, 9, 10, 11, 12, 13, 14, 15⟩

/-! ## Helper lemmas -/

/-- A push-loop (`foldl` appending `(g e).toList`) is a `filterMap`. -/
theorem foldl_append_optToList {α β : Type} (g : α → Option β) (l : List α) :
    ∀ init : List β,
      l.foldl (fun acc e => acc ++ (g e).toList) init = init ++ l.filterMap g := by
  induction l with
  | nil => intro init; simp
  | cons x xs ih =>
      intro init
      simp only [List.foldl_cons, List.filterMap_cons, ih]
      cases g x <;> simp

/-- `match_spaces_with_plugins` is the `filterMap` of the per-space
decision. -/
theorem match_spaces_with_plugins_eq_filterMap (spaces : List GeoSpaceCreated)
    (gps : List GeoGovernancePluginCreated)
    (pps : List GeoPersonalSpaceAdminPluginCreated) :
    match_spaces_with_plugins spaces gps pps =
      spaces.filterMap (match_one_space gps pps) := by
  have hbody :
      (fun (created_spaces : List CreatedSpace) (space : GeoSpaceCreated) =>
        match gps.find?
            (fun plugin => plugin.dao_address = space.dao_address) with
        | some governance_plugin =>
            created_spaces ++ [.publicSpace
              { dao_address := space.dao_address
                space_address := space.space_address
                membership_plugin := governance_plugin.member_access_address
                governance_plugin := governance_plugin.main_voting_address }]
        | none =>
            match pps.find?
                (fun plugin => plugin.dao_address = space.dao_address) with
            | some personal_plugin =>
                created_spaces ++ [.personal
                  { dao_address := space.dao_address
                    space_address := space.space_address
                    personal_plugin := personal_plugin.personal_admin_address }]
            | none => created_spaces) =
      (fun acc space => acc ++ (match_one_space gps pps space).toList) := by
    funext acc space
    unfold match_one_space
    cases gps.find? (fun plugin => plugin.dao_address = space.dao_address) with
    | some g => rfl
    | none =>
        cases pps.find?
            (fun plugin => plugin.dao_address = space.dao_address) <;> simp
  unfold match_spaces_with_plugins
  rw [hbody, foldl_append_optToList]
  simp

/-- The blocklist loop is a `filterMap` keeping non-blocklisted events. -/
theorem non_blocklisted_edits_published_eq (blocklist : List String)
    (geo : GeoOutput) :
    non_blocklisted_edits_published blocklist geo =
      geo.edits_published.filterMap (fun chain_edit =>
        if chain_edit.dao_address ∈ blocklist then none else some chain_edit) := by
  have hbody :
      (fun (acc : List EditPublished) (chain_edit : EditPublished) =>
        if chain_edit.dao_address ∈ blocklist then acc else acc ++ [chain_edit]) =
      (fun acc chain_edit => acc ++
        ((if chain_edit.dao_address ∈ blocklist then none
          else some chain_edit) : Option EditPublished).toList) := by
    funext acc chain_edit
    by_cases h : chain_edit.dao_address ∈ blocklist <;> simp [h]
  unfold non_blocklisted_edits_published
  rw [hbody, foldl_append_optToList]
  simp

/-- Membership in the non-blocklisted events. -/
theorem mem_non_blocklisted_edits_published {blocklist : List String}
    {geo : GeoOutput} {e : EditPublished} :
    e ∈ non_blocklisted_edits_published blocklist geo ↔
      e ∈ geo.edits_published ∧ e.dao_address ∉ blocklist := by
  rw [non_blocklisted_edits_published_eq]
  simp only [List.mem_filterMap]
  constructor
  · rintro ⟨a, ha, hsome⟩
    by_cases h : a.dao_address ∈ blocklist
    · simp [h] at hsome
    · simp [h] at hsome
      exact ⟨hsome ▸ ha, hsome ▸ h⟩
  · rintro ⟨ha, hb⟩
    exact ⟨e, ha, by simp [hb]⟩

/-- The edit-extraction loop is the `filterMap` of the cache lookup over the
non-blocklisted events, in their original order. -/
theorem final_edits_eq_filterMap (blocklist : List String) (geo : GeoOutput)
    (cache_map : String → Option PreprocessedEdit) :
    final_edits blocklist geo cache_map =
      (non_blocklisted_edits_published blocklist geo).filterMap
        (fun chain_edit => cache_map chain_edit.content_uri) := by
  have hbody :
      (fun (acc : List PreprocessedEdit) (chain_edit : EditPublished) =>
        match cache_map chain_edit.content_uri with
        | some cached_edit => acc ++ [cached_edit]
        | none => acc) =
      (fun acc chain_edit =>
        acc ++ (cache_map chain_edit.content_uri).toList) := by
    funext acc chain_edit
    cases cache_map chain_edit.content_uri <;> simp
  unfold final_edits
  rw [hbody, foldl_append_optToList]
  simp

/-- Deduplication preserves membership. -/
theorem mem_deduplicate_content_uris {l : List String} {u : String} :
    u ∈ deduplicate_content_uris l ↔ u ∈ l := by
  induction l with
  | nil => simp [deduplicate_content_uris]
  | cons x xs ih =>
      by_cases hx : x ∈ xs
      · rw [show deduplicate_content_uris (x :: xs) =
              deduplicate_content_uris xs from by
            simp [deduplicate_content_uris, hx]]
        rw [ih]
        simp only [List.mem_cons]
        exact ⟨fun h => Or.inr h, fun h => h.elim (fun he => he ▸ hx) id⟩
      · rw [show deduplicate_content_uris (x :: xs) =
              x :: deduplicate_content_uris xs from by
            simp [deduplicate_content_uris, hx]]
        simp [ih]

/-- The deduplicated list has no duplicates. -/
theorem nodup_deduplicate_content_uris (l : List String) :
    (deduplicate_content_uris l).Nodup := by
  induction l with
  | nil => simp [deduplicate_content_uris]
  | cons x xs ih =>
      by_cases hx : x ∈ xs
      · simpa [deduplicate_content_uris, hx] using ih
      · rw [show deduplicate_content_uris (x :: xs) =
              x :: deduplicate_content_uris xs from by
            simp [deduplicate_content_uris, hx]]
        exact List.nodup_cons.mpr ⟨fun h => hx (mem_deduplicate_content_uris.mp h), ih⟩

/-- Each URI of the input occurs exactly once in the deduplicated list. -/
theorem count_deduplicate_content_uris {l : List String} {u : String}
    (hu : u ∈ l) : (deduplicate_content_uris l).count u = 1 := by
  have hmem : u ∈ deduplicate_content_uris l :=
    mem_deduplicate_content_uris.mpr hu
  have hle := List.nodup_iff_count_le_one.mp (nodup_deduplicate_content_uris l) u
  have hpos := List.count_pos_iff.mpr hmem
  omega

/-- The deduplicated list enumerates exactly the distinct URIs. -/
theorem length_deduplicate_content_uris (l : List String) :
    (deduplicate_content_uris l).length = l.toFinset.card := by
  induction l with
  | nil => simp [deduplicate_content_uris]
  | cons x xs ih =>
      by_cases hx : x ∈ xs
      · rw [show deduplicate_content_uris (x :: xs) =
              deduplicate_content_uris xs from by
            simp [deduplicate_content_uris, hx]]
        rw [ih, List.toFinset_cons,
          Finset.insert_eq_self.mpr (List.mem_toFinset.mpr hx)]
      · rw [show deduplicate_content_uris (x :: xs) =
              x :: deduplicate_content_uris xs from by
            simp [deduplicate_content_uris, hx]]
        rw [List.length_cons, ih, List.toFinset_cons,
          Finset.card_insert_of_not_mem (fun h => hx (List.mem_toFinset.mp h))]

/-- Stamping forces the UUID version to 4. -/
theorem builder_version (d : Bytes16) :
    (builderFromRandomBytes d).version = 4 := by
  show (d.b6 % 16 + 64) / 16 = 4
  have h : d.b6 % 16 < 16 := Nat.mod_lt _ (by norm_num)
  omega

/-- Stamping forces the RFC 4122 variant bits `0b10`. -/
theorem builder_variant (d : Bytes16) :
    (builderFromRandomBytes d).variantBits = 2 := by
  show (d.b8 % 64 + 128) / 64 = 2
  have h : d.b8 % 64 < 64 := Nat.mod_lt _ (by norm_num)
  omega

/-- Stamping identifies digests that agree outside the stamped bits. -/
theorem builder_collapse {x y : Bytes16}
    (h : digestsAgreeOutsideStampedBits x y) :
    builderFromRandomBytes x = builderFromRandomBytes y := by
  cases x; cases y
  obtain ⟨h0, h1, h2, h3, h4, h5, h6, h7, h8, h9, h10, h11, h12, h13, h14,
    h15⟩ := h
  simp only [builderFromRandomBytes] at *
  simp_all

/-- The stamped byte 6 is at least 64 (so a stamped UUID is never nil). -/
theorem builder_b6_ge (d : Bytes16) : 64 ≤ (builderFromRandomBytes d).b6 := by
  simp [builderFromRandomBytes]

/-- Claim C9 (confirmed): `derive_space_id` and `derive_proposal_id` are pure
functions of their string arguments (purity is inherent in the embedding);
their output is not the raw MD5 digest: the version field is forced to `4`
and the variant bits to RFC 4122's `0b10` by overwriting six digest bits, the
stamping is not the identity, and any two digests that differ only in those
stamped bits — in particular the digests of two distinct inputs — yield the
same UUID. -/
theorem C9_id_derivation_stamping :
    (∀ d : Bytes16, (builderFromRandomBytes d).version = 4 ∧
      (builderFromRandomBytes d).variantBits = 2) ∧
    (∀ network dao : String, (derive_space_id network dao).version = 4 ∧
      (derive_space_id network dao).variantBits = 2) ∧
    (∀ dao pid plugin : String,
      (derive_proposal_id dao pid plugin).version = 4 ∧
      (derive_proposal_id dao pid plugin).variantBits = 2) ∧
    (∃ d : Bytes16, builderFromRandomBytes d ≠ d) ∧
    (∀ x y : Bytes16, digestsAgreeOutsideStampedBits x y →
      builderFromRandomBytes x = builderFromRandomBytes y) ∧
    (∀ network dao1 dao2 : String,
      digestsAgreeOutsideStampedBits
        (md5Bytes (utf8Bytes (network ++ ":" ++ checksum_address dao1)))
        (md5Bytes (utf8Bytes (network ++ ":" ++ checksum_address dao2))) →
      derive_space_id network dao1 = derive_space_id network dao2) ∧
    (∀ dao1 pid1 plugin1 dao2 pid2 plugin2 : String,
      digestsAgreeOutsideStampedBits
        (md5Bytes (utf8Bytes (checksum_address dao1 ++ ":" ++ pid1 ++ ":" ++
          checksum_address plugin1)))
        (md5Bytes (utf8Bytes (checksum_address dao2 ++ ":" ++ pid2 ++ ":" ++
          checksum_address plugin2))) →
      derive_proposal_id dao1 pid1 plugin1 =
        derive_proposal_id dao2 pid2 plugin2) := by
  refine ⟨fun d => ⟨builder_version d, builder_variant d⟩,
    fun n a => ⟨builder_version _, builder_variant _⟩,
    fun a p g => ⟨builder_version _, builder_variant _⟩,
    ⟨Uuid.nilUuid, by decide⟩,
    fun x y h => builder_collapse h,
    fun n a1 a2 h => builder_collapse h,
    fun a1 p1 g1 a2 p2 g2 h => builder_collapse h⟩

/-- Witness for C9: a concrete pair of distinct digests that differ only in
the stamped bits is collapsed, and the derive functions collapse digests
that agree outside the stamped bits. -/
theorem C9_id_derivation_stamping_witness :
    (⟨0, 0, 0, 0, 0, 0, 0, 0, 0, 0, 0, 0, 0, 0, 0, 0⟩ : Bytes16) ≠
      ⟨0, 0, 0, 0, 0, 0, 16, 0, 64, 0, 0, 0, 0, 0, 0, 0⟩ ∧
    builderFromRandomBytes ⟨0, 0, 0, 0, 0, 0, 0, 0, 0, 0, 0, 0, 0, 0, 0, 0⟩ =
      builderFromRandomBytes ⟨0, 0, 0, 0, 0, 0, 16, 0, 64, 0, 0, 0, 0, 0, 0, 0⟩ ∧
    derive_space_id "geo" "0xAB" = derive_space_id "geo" "0xAB" ∧
    derive_proposal_id "0xA" "7" "0xB" = derive_proposal_id "0xA" "7" "0xB" := by
  refine ⟨by decide,
    C9_id_derivation_stamping.2.2.2.2.1 _ _
      ⟨rfl, rfl, rfl, rfl, rfl, rfl, rfl, rfl, rfl, rfl, rfl, rfl, rfl, rfl,
        rfl, rfl⟩,
    C9_id_derivation_stamping.2.2.2.2.2.1 "geo" "0xAB" "0xAB"
      ⟨rfl, rfl, rfl, rfl, rfl, rfl, rfl, rfl, rfl, rfl, rfl, rfl, rfl, rfl,
        rfl, rfl⟩,
    C9_id_derivation_stamping.2.2.2.2.2.2 "0xA" "7" "0xB" "0xA" "7" "0xB"
      ⟨rfl, rfl, rfl, rfl, rfl, rfl, rfl, rfl, rfl, rfl, rfl, rfl, rfl, rfl,
        rfl, rfl⟩⟩

/-- Claim C5 (confirmed): for a `PublishEdit` proposal, the correlated
`edit_id` is `some (Uuid::from_bytes(edit.id))` exactly when the fetched
cache map has the proposal's content URI, the row is not errored, it carries
a decoded edit, and that edit's raw `id` is exactly 16 bytes; in every other
case (cache miss, errored row, missing edit, or any other id length,
including empty) it is `none`. -/
theorem C5_publish_edit_correlation
    (cache_map : String → Option PreprocessedEdit)
    (p : PublishEditProposalCreated) (u : Uuid) :
    publish_edit_id cache_map p = some u ↔
      ∃ row, cache_map p.content_uri = some row ∧ row.is_errored = false ∧
        ∃ e, row.edit = some e ∧ e.id.length = 16 ∧
          u = Uuid.fromByteList e.id := by
  unfold publish_edit_id
  cases hc : cache_map p.content_uri with
  | none => simp
  | some row =>
      cases hb : row.is_errored with
      | true => simp [hb]
      | false =>
          cases he : row.edit with
          | none => simp [hb, he]
          | some e =>
              by_cases hl : e.id.length = 16
              · have ht : transform_id_bytes e.id = .ok e.id := by
                  simp [transform_id_bytes, hl]
                simp only [hb, he, ht]
                constructor
                · intro h
                  exact ⟨row, rfl, hb, e, he, hl, (Option.some_inj.mp h).symm⟩
                · rintro ⟨row', hrow', herr, e', he', hl', hu⟩
                  obtain rfl : row = row' := Option.some_inj.mp hrow'
                  rw [he] at he'
                  obtain rfl : e = e' := Option.some_inj.mp he'
                  rw [hu]
                  simp
              · have ht : transform_id_bytes e.id = .error .decodeError := by
                  simp [transform_id_bytes, hl]
                simp only [hb, he, ht]
                constructor
                · intro h
                  exact absurd h (by simp)
                · rintro ⟨row', hrow', herr, e', he', hl', hu⟩
                  obtain rfl : row = row' := Option.some_inj.mp hrow'
                  rw [he] at he'
                  obtain rfl : e = e' := Option.some_inj.mp he'
                  exact absurd hl' hl

/-- Claim C6 (confirmed): space-plugin matching is exclusive with Public
precedence.  `match_spaces_with_plugins` is the `filterMap` of a per-space
decision (hence emits at most one record per created space); the decision
yields a Public space whenever some governance plugin shares the space's DAO
address (even if a personal-admin plugin also matches), a Personal space when
no governance plugin matches but a personal-admin plugin does, and nothing
when neither matches. -/
theorem C6_space_plugin_matching (spaces : List GeoSpaceCreated)
    (gps : List GeoGovernancePluginCreated)
    (pps : List GeoPersonalSpaceAdminPluginCreated) :
    match_spaces_with_plugins spaces gps pps =
      spaces.filterMap (match_one_space gps pps) ∧
    ∀ space : GeoSpaceCreated,
      ((∃ g ∈ gps, g.dao_address = space.dao_address) →
        ∃ g ∈ gps, g.dao_address = space.dao_address ∧
          match_one_space gps pps space = some (.publicSpace
            { dao_address := space.dao_address
              space_address := space.space_address
              membership_plugin := g.member_access_address
              governance_plugin := g.main_voting_address })) ∧
      ((¬ ∃ g ∈ gps, g.dao_address = space.dao_address) →
        (∃ q ∈ pps, q.dao_address = space.dao_address) →
        ∃ q ∈ pps, q.dao_address = space.dao_address ∧
          match_one_space gps pps space = some (.personal
            { dao_address := space.dao_address
              space_address := space.space_address
              personal_plugin := q.personal_admin_address })) ∧
      ((¬ ∃ g ∈ gps, g.dao_address = space.dao_address) →
        (¬ ∃ q ∈ pps, q.dao_address = space.dao_address) →
        match_one_space gps pps space = none) := by
  refine ⟨match_spaces_with_plugins_eq_filterMap spaces gps pps, fun space => ⟨?_, ?_, ?_⟩⟩
  · intro hg
    cases hf : gps.find? (fun plugin => plugin.dao_address = space.dao_address) with
    | none =>
        rw [List.find?_eq_none] at hf
        obtain ⟨g, hmem, hdao⟩ := hg
        exact absurd (by simpa using hdao) (by simpa using hf g hmem)
    | some g =>
        refine ⟨g, List.mem_of_find?_eq_some hf, by simpa using List.find?_some hf, ?_⟩
        unfold match_one_space
        rw [hf]
  · intro hg hq
    have hfg : gps.find? (fun plugin => plugin.dao_address = space.dao_address) = none := by
      rw [List.find?_eq_none]
      intro g hmem
      simp only [decide_eq_true_eq]
      exact fun hdao => hg ⟨g, hmem, hdao⟩
    cases hf : pps.find? (fun plugin => plugin.dao_address = space.dao_address) with
    | none =>
        rw [List.find?_eq_none] at hf
        obtain ⟨q, hmem, hdao⟩ := hq
        exact absurd (by simpa using hdao) (by simpa using hf q hmem)
    | some q =>
        refine ⟨q, List.mem_of_find?_eq_some hf, by simpa using List.find?_some hf, ?_⟩
        unfold match_one_space
        rw [hfg, hf]
  · intro hg hq
    have hfg : gps.find? (fun plugin => plugin.dao_address = space.dao_address) = none := by
      rw [List.find?_eq_none]
      intro g hmem
      simp only [decide_eq_true_eq]
      exact fun hdao => hg ⟨g, hmem, hdao⟩
    have hfq : pps.find? (fun plugin => plugin.dao_address = space.dao_address) = none := by
      rw [List.find?_eq_none]
      intro q hmem
      simp only [decide_eq_true_eq]
      exact fun hdao => hq ⟨q, hmem, hdao⟩
    unfold match_one_space
    rw [hfg, hfq]

/-- Witness for C6: a DAO with both plugin kinds matches as Public. -/
theorem C6_space_plugin_matching_witness :
    match_spaces_with_plugins [⟨"dao1", "sp1"⟩] [⟨"dao1", "vote1", "mem1"⟩]
        [⟨"dao1", "admin1"⟩] =
      [⟨"dao1", "sp1"⟩].filterMap
        (match_one_space [⟨"dao1", "vote1", "mem1"⟩] [⟨"dao1", "admin1"⟩]) ∧
    ∃ g ∈ [(⟨"dao1", "vote1", "mem1"⟩ : GeoGovernancePluginCreated)],
      g.dao_address = "dao1" ∧
        match_one_space [⟨"dao1", "vote1", "mem1"⟩] [⟨"dao1", "admin1"⟩]
          ⟨"dao1", "sp1"⟩ = some (.publicSpace
            ⟨"dao1", "sp1", g.member_access_address, g.main_voting_address⟩) :=
  ⟨(C6_space_plugin_matching [⟨"dao1", "sp1"⟩] [⟨"dao1", "vote1", "mem1"⟩]
      [⟨"dao1", "admin1"⟩]).1,
    ((C6_space_plugin_matching [⟨"dao1", "sp1"⟩] [⟨"dao1", "vote1", "mem1"⟩]
      [⟨"dao1", "admin1"⟩]).2 ⟨"dao1", "sp1"⟩).1
      ⟨⟨"dao1", "vote1", "mem1"⟩, by simp, rfl⟩⟩

/-- Claim C7 (confirmed): a content URI occurring at least once across the
non-blocklisted `edits_published` events and the `edits` proposal events of a
block appears exactly once in the deduplicated fetch list — so it gives rise
to exactly one retried `cache.get` task — and the number of spawned fetch
tasks equals the number of distinct URIs collected. -/
theorem C7_uri_dedup (blocklist : List String) (geo : GeoOutput)
    (u : String) (hu : u ∈ all_content_uris blocklist geo) :
    (deduplicate_content_uris (all_content_uris blocklist geo)).count u = 1 ∧
    num_spawned_fetch_tasks (all_content_uris blocklist geo) =
      (all_content_uris blocklist geo).toFinset.card :=
  ⟨count_deduplicate_content_uris hu,
    length_deduplicate_content_uris (all_content_uris blocklist geo)⟩

/-- Witness for C7: a URI listed in `edits_published` and in two proposal
events is fetched once; two tasks for two distinct URIs. -/
theorem C7_uri_dedup_witness :
    "ipfs://u" ∈ all_content_uris []
      { edits_published := [⟨"ipfs://u", "dao1", "p1"⟩,
          ⟨"ipfs://v", "dao2", "p2"⟩]
        edits := [⟨"1", "c", "0", "0", "ipfs://u", "dao1", "p1"⟩]
        spaces_created := []
        governance_plugins_created := []
        personal_plugins_created := []
        editors_added := []
        members_added := []
        editors_removed := []
        members_removed := []
        subspaces_added := []
        subspaces_removed := []
        executed_proposals := []
        proposed_added_members := []
        proposed_removed_members := []
        proposed_added_editors := []
        proposed_removed_editors := []
        proposed_added_subspaces := []
        proposed_removed_subspaces := [] } ∧
    (deduplicate_content_uris (all_content_uris []
      { edits_published := [⟨"ipfs://u", "dao1", "p1"⟩,
          ⟨"ipfs://v", "dao2", "p2"⟩]
        edits := [⟨"1", "c", "0", "0", "ipfs://u", "dao1", "p1"⟩]
        spaces_created := []
        governance_plugins_created := []
        personal_plugins_created := []
        editors_added := []
        members_added := []
        editors_removed := []
        members_removed := []
        subspaces_added := []
        subspaces_removed := []
        executed_proposals := []
        proposed_added_members := []
        proposed_removed_members := []
        proposed_added_editors := []
        proposed_removed_editors := []
        proposed_added_subspaces := []
        proposed_removed_subspaces := [] })).count "ipfs://u" = 1 := by
  refine ⟨by decide, (C7_uri_dedup _ _ "ipfs://u" (by decide)).1⟩

/-- Claim C8 (confirmed): per-URI processing in the Content Resolver.  If the
cache already has a row for the event's content URI the resolver returns
without writing; otherwise a failed IPFS fetch-and-decode writes a row with
null payload and `is_errored = true`, and a successful one writes the decoded
payload with `is_errored = false`; in both write cases the row's space id is
`derive_space_id` applied to the event's DAO address. -/
theorem C8_content_resolver (cacheHasUri : Bool) (data : IpfsFetchResult)
    (content_uri dao_address : String) (block : BlockMetadata) :
    (cacheHasUri = true →
      process_edit_event cacheHasUri data content_uri dao_address block =
        none) ∧
    (cacheHasUri = false → data = .fetchError →
      process_edit_event cacheHasUri data content_uri dao_address block =
        some { uri := content_uri
               json := none
               block := block.timestamp
               space := derive_space_id GEO dao_address
               is_errored := true }) ∧
    (∀ result : Edit, cacheHasUri = false → data = .ok result →
      process_edit_event cacheHasUri data content_uri dao_address block =
        some { uri := content_uri
               json := some result
               block := block.timestamp
               space := derive_space_id GEO dao_address
               is_errored := false }) ∧
    (∀ item : CacheItem,
      process_edit_event cacheHasUri data content_uri dao_address block =
        some item → item.space = derive_space_id GEO dao_address) := by
  refine ⟨fun h => by simp [process_edit_event, h], ?_, ?_, ?_⟩
  · rintro h rfl
    simp [process_edit_event, h]
  · rintro result h rfl
    simp [process_edit_event, h]
  · intro item hitem
    cases cacheHasUri with
    | true => simp [process_edit_event] at hitem
    | false =>
        cases data with
        | ok result =>
            simp only [process_edit_event, if_false, Bool.false_eq_true,
              ite_false] at hitem
            rw [← Option.some_inj.mp hitem]
        | fetchError =>
            simp only [process_edit_event, if_false, Bool.false_eq_true,
              ite_false] at hitem
            rw [← Option.some_inj.mp hitem]

/-- Witness for C8: concrete skip, error-write and success-write cases. -/
theorem C8_content_resolver_witness :
    process_edit_event true .fetchError "ipfs://u" "0xdao" ⟨"c", 5, "111"⟩ =
      none ∧
    process_edit_event false .fetchError "ipfs://u" "0xdao" ⟨"c", 5, "111"⟩ =
      some { uri := "ipfs://u"
             json := none
             block := "111"
             space := derive_space_id GEO "0xdao"
             is_errored := true } ∧
    process_edit_event false (.ok ⟨[1], "e"⟩) "ipfs://u" "0xdao"
        ⟨"c", 5, "111"⟩ =
      some { uri := "ipfs://u"
             json := some ⟨[1], "e"⟩
             block := "111"
             space := derive_space_id GEO "0xdao"
             is_errored := false } :=
  ⟨(C8_content_resolver true .fetchError "ipfs://u" "0xdao" ⟨"c", 5, "111"⟩).1
      rfl,
    (C8_content_resolver false .fetchError "ipfs://u" "0xdao"
      ⟨"c", 5, "111"⟩).2.1 rfl rfl,
    (C8_content_resolver false (.ok ⟨[1], "e"⟩) "ipfs://u" "0xdao"
      ⟨"c", 5, "111"⟩).2.2.1 ⟨[1], "e"⟩ rfl rfl⟩

/-- Claim C10 (confirmed): a non-blocklisted `EditPublished` event whose
content URI is absent from the fetched cache map contributes nothing to
`KgData.edits` — the block is not failed, the edit is silently omitted — and
the remaining edits are exactly the cache rows of the non-blocklisted events,
in the original event order (`filterMap` preserves order). -/
theorem C10_cache_miss_edit_omitted (blocklist : List String)
    (geo : GeoOutput) (cache_map : String → Option PreprocessedEdit) :
    final_edits blocklist geo cache_map =
      (non_blocklisted_edits_published blocklist geo).filterMap
        (fun chain_edit => cache_map chain_edit.content_uri) ∧
    (preprocess_block_scoped_data blocklist geo ⟨"", 0, ""⟩
        (fun _ => none)).edits = [] := by
  refine ⟨final_edits_eq_filterMap blocklist geo cache_map, ?_⟩
  show final_edits blocklist geo _ = []
  rw [final_edits_eq_filterMap]
  simp [fetch_deduplicated_cache_entries]

/-- Counterexample to claim C4 as stated: with blocklist `["0xbad"]`, a
`PublishEdit` proposal whose DAO address is `"0xbad"` still appears in
`KgData.created_proposals` — proposals are not blocklist-filtered (only
`edits_published` events are, so `edits` is empty here). -/
theorem C4_counterexample :
    "0xbad" ∈ ["0xbad"] ∧
    (preprocess_block_scoped_data ["0xbad"] geoBlockedProposal ⟨"", 0, ""⟩
      (fun _ => none)).created_proposals.map ProposalCreated.daoAddress =
        ["0xbad"] ∧
    (preprocess_block_scoped_data ["0xbad"] geoBlockedProposal ⟨"", 0, ""⟩
      (fun _ => none)).edits = [] := by
  refine ⟨by decide, by decide, by decide⟩

/-- Claim C4 (corrected): the blocklist is a hard skip for published edits
only.  Every row in `KgData.edits` comes from a non-blocklisted
`edits_published` event via the fetched cache map; created proposals are not
blocklist-filtered — every `PublishEdit` proposal event of the block yields a
`created_proposals` entry regardless of its DAO address. -/
theorem C4_blocklist_scope (blocklist : List String) (geo : GeoOutput)
    (block : BlockMetadata) (cacheGet : String → Option PreprocessedEdit) :
    (∀ pe ∈ (preprocess_block_scoped_data blocklist geo block cacheGet).edits,
      ∃ e ∈ geo.edits_published, e.dao_address ∉ blocklist ∧
        fetch_deduplicated_cache_entries cacheGet
          (all_content_uris blocklist geo) e.content_uri = some pe) ∧
    (∀ p ∈ geo.edits,
      ProposalCreated.publishEdit p.proposal_id p.creator p.start_time
        p.end_time p.content_uri p.dao_address p.plugin_address
        (publish_edit_id
          (fetch_deduplicated_cache_entries cacheGet
            (all_content_uris blocklist geo)) p) ∈
        (preprocess_block_scoped_data blocklist geo block
          cacheGet).created_proposals) := by
  constructor
  · intro pe hpe
    have hedits :
        (preprocess_block_scoped_data blocklist geo block cacheGet).edits =
          final_edits blocklist geo
            (fetch_deduplicated_cache_entries cacheGet
              (all_content_uris blocklist geo)) := rfl
    rw [hedits, final_edits_eq_filterMap, List.mem_filterMap] at hpe
    obtain ⟨e, he, hsome⟩ := hpe
    obtain ⟨hmem, hbl⟩ := mem_non_blocklisted_edits_published.mp he
    exact ⟨e, hmem, hbl, hsome⟩
  · intro p hp
    have hprops :
        (preprocess_block_scoped_data blocklist geo block
            cacheGet).created_proposals =
          map_created_proposals geo
            (fetch_deduplicated_cache_entries cacheGet
              (all_content_uris blocklist geo)) := rfl
    rw [hprops]
    unfold map_created_proposals
    simp only [List.mem_append, List.mem_map]
    exact Or.inl (Or.inl (Or.inl (Or.inl (Or.inl (Or.inl ⟨p, hp, rfl⟩)))))

/-- Witness for C4: the blocklisted proposal of `geoBlockedProposal` is
emitted into `created_proposals`. -/
theorem C4_blocklist_scope_witness :
    (⟨"1", "c", "0", "0", "ipfs://u", "0xbad", "p"⟩ :
        PublishEditProposalCreated) ∈ geoBlockedProposal.edits ∧
    ProposalCreated.publishEdit "1" "c" "0" "0" "ipfs://u" "0xbad" "p"
        (publish_edit_id
          (fetch_deduplicated_cache_entries (fun _ => none)
            (all_content_uris ["0xbad"] geoBlockedProposal))
          ⟨"1", "c", "0", "0", "ipfs://u", "0xbad", "p"⟩) ∈
      (preprocess_block_scoped_data ["0xbad"] geoBlockedProposal ⟨"", 0, ""⟩
        (fun _ => none)).created_proposals :=
  ⟨by decide,
    (C4_blocklist_scope ["0xbad"] geoBlockedProposal ⟨"", 0, ""⟩
      (fun _ => none)).2 ⟨"1", "c", "0", "0", "ipfs://u", "0xbad", "p"⟩
      (by decide)⟩

/-- Counterexample to claim C1 as stated: when `insert_entities` returns an
error inside the edit's transaction, the handler logs it, keeps issuing the
remaining calls, and still commits — the edit's committed writes are not
empty (the other seven calls' writes land), so the transaction is not rolled
back by the handler. -/
theorem C1_counterexample :
    oracleEntitiesFail.stepFails editOk.cid .insertEntities = true ∧
    editOk.is_errored = false ∧
    TxEvent.logError editOk.cid .insertEntities ∈
      edit_handler_run oracleEntitiesFail [editOk] ∧
    TxEvent.write editOk.cid .insertValues ∈
      edit_handler_run oracleEntitiesFail [editOk] ∧
    TxEvent.commitTx editOk.cid ∈
      edit_handler_run oracleEntitiesFail [editOk] ∧
    edit_committed_writes oracleEntitiesFail editOk ≠ [] := by
  refine ⟨by decide, by decide, by decide, by decide, by decide, by decide⟩

/-- Claim C1 (corrected): each storage call's error within an edit's
transaction is caught and logged; the handler still issues every remaining
call of that edit, still commits the transaction (so the successful calls'
writes are committed even when another call failed), and proceeds to the next
edit — every edit of the batch gets its begin/commit events. -/
theorem C1_per_edit_error_handling (oracle : StorageOracle)
    (output : List PreprocessedEdit) (e : PreprocessedEdit)
    (he : e ∈ output) (herr : e.is_errored = false) :
    (∀ step ∈ editSteps, oracle.stepFails e.cid step = true →
      TxEvent.logError e.cid step ∈ edit_handler_run oracle output) ∧
    (∀ step ∈ editSteps, oracle.stepFails e.cid step = false →
      TxEvent.write e.cid step ∈ edit_handler_run oracle output) ∧
    TxEvent.beginTx e.cid ∈ edit_handler_run oracle output ∧
    (oracle.commitFails e.cid = false →
      TxEvent.commitTx e.cid ∈ edit_handler_run oracle output) ∧
    (oracle.commitFails e.cid = false →
      edit_committed_writes oracle e =
        editSteps.filter (fun step => oracle.stepFails e.cid step = false)) := by
  refine ⟨?_, ?_, ?_, ?_, ?_⟩
  · intro step hstep hfail
    rw [edit_handler_run, List.mem_flatMap]
    refine ⟨e, he, ?_⟩
    unfold edit_handler_edit_events
    simp only [herr, if_true, List.mem_append, List.mem_flatMap]
    exact Or.inl (Or.inr (Or.inr ⟨step, hstep, by simp [hfail]⟩))
  · intro step hstep hok
    rw [edit_handler_run, List.mem_flatMap]
    refine ⟨e, he, ?_⟩
    unfold edit_handler_edit_events
    simp only [herr, if_true, List.mem_append, List.mem_flatMap]
    exact Or.inl (Or.inr (Or.inr ⟨step, hstep, by simp [hok]⟩))
  · rw [edit_handler_run, List.mem_flatMap]
    refine ⟨e, he, ?_⟩
    unfold edit_handler_edit_events
    simp
  · intro hcommit
    rw [edit_handler_run, List.mem_flatMap]
    refine ⟨e, he, ?_⟩
    unfold edit_handler_edit_events
    simp [hcommit]
  · intro hcommit
    unfold edit_committed_writes
    simp [herr, hcommit]

/-- Witness for C1: the corrected behavior at the concrete failing oracle —
the entities error is logged, the values write still happens, the commit
happens, and the committed writes are the seven successful calls. -/
theorem C1_per_edit_error_handling_witness :
    TxEvent.logError editOk.cid .insertEntities ∈
      edit_handler_run oracleEntitiesFail [editOk] ∧
    TxEvent.write editOk.cid .insertValues ∈
      edit_handler_run oracleEntitiesFail [editOk] ∧
    TxEvent.commitTx editOk.cid ∈
      edit_handler_run oracleEntitiesFail [editOk] ∧
    edit_committed_writes oracleEntitiesFail editOk =
      [.insertProperties, .insertValues, .deleteValues, .insertRelations,
       .updateRelations, .unsetRelationFields, .deleteRelations] := by
  have h := C1_per_edit_error_handling oracleEntitiesFail [editOk] editOk
    (by decide) (by decide)
  refine ⟨h.1 .insertEntities (by decide) (by decide),
    h.2.1 .insertValues (by decide) (by decide),
    h.2.2.2.1 (by decide), ?_⟩
  rw [h.2.2.2.2 (by decide)]
  decide

/-- Counterexample to claim C2 as stated: for an errored cache row the
handler does log and skip the edit's mutations, but a storage transaction is
still opened — `begin` runs before the `is_errored` check — and the (empty)
transaction is committed. -/
theorem C2_counterexample :
    editErrored.is_errored = true ∧
    TxEvent.beginTx editErrored.cid ∈
      edit_handler_run oracleAllOk [editErrored] ∧
    TxEvent.commitTx editErrored.cid ∈
      edit_handler_run oracleAllOk [editErrored] := by
  refine ⟨by decide, by decide, by decide⟩

/-- Claim C2 (corrected): for every preprocessed edit whose cache row is
errored the handler logs and skips it — no storage call is issued and no
write of that edit is committed, leaving storage unchanged — but a
transaction is still begun (and then committed empty); the per-edit trace is
exactly begin, skip, commit. -/
theorem C2_errored_edit_skip (oracle : StorageOracle)
    (output : List PreprocessedEdit) (e : PreprocessedEdit)
    (he : e ∈ output) (herr : e.is_errored = true) :
    edit_handler_edit_events oracle e =
      [TxEvent.beginTx e.cid, TxEvent.skipErrored e.cid,
        if oracle.commitFails e.cid then TxEvent.logCommitError e.cid
        else TxEvent.commitTx e.cid] ∧
    TxEvent.beginTx e.cid ∈ edit_handler_run oracle output ∧
    TxEvent.skipErrored e.cid ∈ edit_handler_run oracle output ∧
    (∀ step : StorageStep,
      TxEvent.write e.cid step ∉ edit_handler_edit_events oracle e) ∧
    edit_committed_writes oracle e = [] := by
  have hevents : edit_handler_edit_events oracle e =
      [TxEvent.beginTx e.cid, TxEvent.skipErrored e.cid,
        if oracle.commitFails e.cid then TxEvent.logCommitError e.cid
        else TxEvent.commitTx e.cid] := by
    unfold edit_handler_edit_events
    simp [herr]
  refine ⟨hevents, ?_, ?_, ?_, ?_⟩
  · rw [edit_handler_run, List.mem_flatMap]
    exact ⟨e, he, by rw [hevents]; simp⟩
  · rw [edit_handler_run, List.mem_flatMap]
    exact ⟨e, he, by rw [hevents]; simp⟩
  · intro step
    rw [hevents]
    intro hmem
    rcases List.mem_cons.mp hmem with h | hmem
    · exact TxEvent.noConfusion h
    rcases List.mem_cons.mp hmem with h | hmem
    · exact TxEvent.noConfusion h
    rcases List.mem_cons.mp hmem with h | hmem
    · cases hcf : oracle.commitFails e.cid <;> rw [hcf] at h <;>
        simp at h
    · exact absurd hmem (List.not_mem_nil _)
  · unfold edit_committed_writes
    simp [herr]

/-- Witness for C2: the corrected behavior at the concrete errored row. -/
theorem C2_errored_edit_skip_witness :
    edit_handler_edit_events oracleAllOk editErrored =
      [TxEvent.beginTx "ipfs://bad", TxEvent.skipErrored "ipfs://bad",
        TxEvent.commitTx "ipfs://bad"] ∧
    TxEvent.beginTx "ipfs://bad" ∈
      edit_handler_run oracleAllOk [editErrored] ∧
    edit_committed_writes oracleAllOk editErrored = [] := by
  have h := C2_errored_edit_skip oracleAllOk [editErrored] editErrored
    (by decide) (by decide)
  exact ⟨by rw [h.1]; decide, h.2.1, h.2.2.2.2⟩

/-- Claim C3 (code bug, evaluated): preprocessing attaches
`id = derive_proposal_id(dao, proposal_id, plugin)` to the `AddMember`
proposal, but `ProposalsModel::map_created_proposals` never reads that field
— the stored `ProposalItem.id` is `Uuid::parse_str(proposal_id)` (here the
nil UUID; a fresh random UUID when the on-chain id does not parse), which
differs from the derived id: a stamped UUID has byte 6 at least 64, so it is
never nil. -/
theorem C3_derived_proposal_id_dropped :
    map_created_proposals geoAddMemberNilPid (fun _ => none) =
      [.addMember
        (derive_proposal_id "0xdao" "00000000-0000-0000-0000-000000000000"
          "0xplug")
        "00000000-0000-0000-0000-000000000000" "0xc" "10" "20" "0xm"
        "0xdao" "0xplug" "added"] ∧
    (ProposalsModel.map_created_proposals
      (map_created_proposals geoAddMemberNilPid (fun _ => none)) 100
      freshFallback).map (fun item => item.id) = [Uuid.nilUuid] ∧
    Uuid.nilUuid ≠ freshFallback ∧
    derive_proposal_id "0xdao" "00000000-0000-0000-0000-000000000000"
      "0xplug" ≠ Uuid.nilUuid := by
  refine ⟨rfl, by decide, by decide, ?_⟩
  intro h
  have h6 := congrArg Bytes16.b6 h
  have hge : 64 ≤ (derive_proposal_id "0xdao"
      "00000000-0000-0000-0000-000000000000" "0xplug").b6 :=
    builder_b6_ge _
  rw [h6] at hge
  simp [Uuid.nilUuid] at hge
